import Mathlib

/-!
Shallow embedding of the feature-state and prediction-request controller of the
wine-quality dashboard: the `Home` component of
src/wine-quality-dashboard/src/app/page.tsx, together with the variant catch
handler of the older page component kept in src/unnamed/part_000 where a claim
refers to it. JavaScript numbers are modelled as exact rationals, with NaN as a
separate constructor where it can arise (parseFloat); fallible parsing returns
Option; the asynchronous network call is modelled by passing its eventual
result (an HTTP response or a transport-level rejection) to the resolution
function explicitly.
-/

namespace WineDash

/-- The closed set of 8 feature names held in component state: the keys of
`featureRanges` in page.tsx lines 7-16. In the source the keys are strings
(with spaces, e.g. 'fixed acidity'); `internalKey` below records them. -/
inductive FeatureName where
  | fixed_acidity
  | volatile_acidity
  | citric_acid
  | chlorides
  | free_sulfur_dioxide
  | density
  | alcohol
  | type_white
deriving DecidableEq

/-- The literal state keys of page.tsx (the `featureRanges` object keys). -/
def internalKey : FeatureName → String
  | .fixed_acidity => "fixed acidity"
  | .volatile_acidity => "volatile acidity"
  | .citric_acid => "citric acid"
  | .chlorides => "chlorides"
  | .free_sulfur_dioxide => "free sulfur dioxide"
  | .density => "density"
  | .alcohol => "alcohol"
  | .type_white => "type_white"

/-- A JavaScript number as stored in feature state: NaN (the result of a
failed parseFloat) or an exact value, modelled as a rational. -/
inductive JsNum where
  | nan
  | num (q : ℚ)
deriving DecidableEq

/-- The value of the `prediction` state variable: `null` (initial and cleared),
`undefined` (a missing response field stored verbatim), or a number. -/
inductive JsValue where
  | null
  | undef
  | num (q : ℚ)
deriving DecidableEq

/-- Per-feature slider bounds. -/
structure FeatureRange where
  min : ℚ
  max : ℚ
  step : ℚ
deriving DecidableEq

/-- Slider ranges of page.tsx lines 7-16. -/
def featureRanges : FeatureName → FeatureRange
  | .fixed_acidity => ⟨4, 16, 0.1⟩
  | .volatile_acidity => ⟨0, 1.6, 0.01⟩
  | .citric_acid => ⟨0, 1.7, 0.01⟩
  | .chlorides => ⟨0, 0.7, 0.001⟩
  | .free_sulfur_dioxide => ⟨1, 300, 1⟩
  | .density => ⟨0.98, 1.04, 0.0001⟩
  | .alcohol => ⟨8, 15, 0.1⟩
  | .type_white => ⟨0, 1, 1⟩

/-- Digits taken greedily from the front of a character list, with the rest. -/
def takeDigits : List Char → List ℕ × List Char
  | [] => ([], [])
  | c :: cs =>
    if c.isDigit then
      let r := takeDigits cs
      ((c.toNat - 48) :: r.1, r.2)
    else ([], c :: cs)

/-- The natural number denoted by a digit list, most significant first. -/
def natOfDigits (ds : List ℕ) : ℕ := ds.foldl (fun a d => 10 * a + d) 0

/-- Unsigned decimal numeral at the front of a character list, as a scaled
pair (mantissa, fraction length), denoting mantissa / 10 ^ length; `none` when
not a single digit is found. -/
def parseScaled (cs : List Char) : Option (ℕ × ℕ) :=
  let ip := takeDigits cs
  match ip.2 with
  | '.' :: rest =>
    let fp := takeDigits rest
    if ip.1.isEmpty && fp.1.isEmpty then none
    else some (natOfDigits (ip.1 ++ fp.1), fp.1.length)
  | _ => if ip.1.isEmpty then none else some (natOfDigits ip.1, 0)

/-- The numeral text of the raw value, fully parsed but not yet turned into a
rational: sign, mantissa, fraction length. -/
def parseFloatScaled (s : String) : Option (Bool × ℕ × ℕ) :=
  match s.toList.dropWhile (fun c => c.isWhitespace) with
  | '-' :: cs => (parseScaled cs).map (fun p => (true, p))
  | '+' :: cs => (parseScaled cs).map (fun p => (false, p))
  | cs => (parseScaled cs).map (fun p => (false, p))

/-- The rational a signed scaled numeral denotes. -/
def ratOfScaled : Bool × ℕ × ℕ → ℚ
  | (sgn, m, k) =>
    if sgn then -((m : ℚ) / (10 : ℚ) ^ k) else (m : ℚ) / (10 : ℚ) ^ k

/-- Model of JavaScript parseFloat restricted to plain decimal numerals:
leading whitespace skipped, optional sign, digits with optional fraction,
trailing characters ignored. Exponents and Infinity are not modelled (no claim
touches them). `none` represents NaN. -/
def parseFloat (s : String) : Option ℚ :=
  (parseFloatScaled s).map ratOfScaled

/-- The number parseFloat produced, as stored into state (NaN on failure). -/
def ofParse : Option ℚ → JsNum
  | some q => JsNum.num q
  | none => JsNum.nan

/-- Initial slider state of page.tsx lines 22-31. -/
def defaultFeatures : FeatureName → JsNum
  | .fixed_acidity => .num 7.0
  | .volatile_acidity => .num 0.27
  | .citric_acid => .num 0.36
  | .chlorides => .num 0.05
  | .free_sulfur_dioxide => .num 30
  | .density => .num 0.995
  | .alcohol => .num 10.5
  | .type_white => .num 1

/-- page.tsx lines 37-42: `setFeatures(prev => ({...prev, [name]:
parseFloat(value)}))`. The parse result is committed unconditionally. -/
def handleSliderChange (fs : FeatureName → JsNum) (name : FeatureName)
    (value : String) : FeatureName → JsNum :=
  fun m => if m = name then ofParse (parseFloat value) else fs m

/-- page.tsx lines 44-49: `setFeatures(prev => ({...prev, type_white:
value}))`; the parameter is a plain number, no validation to 0/1. -/
def handleTypeChange (fs : FeatureName → JsNum) (value : ℚ) :
    FeatureName → JsNum :=
  fun m => if m = FeatureName.type_white then JsNum.num value else fs m

/-- The component state: the three useState cells of page.tsx lines 22-35
relevant to the controller, plus the feature record. -/
structure State where
  features : FeatureName → JsNum
  prediction : JsValue
  isLoading : Bool
  error : Option String

/-- The state on first render: default features, prediction null, not
loading, no error (page.tsx lines 22-35). -/
def initialState : State :=
  { features := defaultFeatures, prediction := JsValue.null,
    isLoading := false, error := none }

/-- The fields of a parsed response body that the handler reads: an optional
`error` string and an optional numeric `predicted_quality` (§6 of the
interface contract; absent fields read as undefined). -/
structure RespBody where
  error : Option String
  predicted_quality : Option ℚ
deriving DecidableEq

/-- The eventual result of the fetch: a transport-level rejection carrying the
runtime error's message, or an HTTP response with its `ok` flag and its body —
`Except.error m` standing for a body `response.json()` fails to parse,
rejecting with message `m`. -/
inductive NetResult where
  | transport (message : String)
  | response (ok : Bool) (body : Except String RespBody)

/-- JavaScript `data.error || fallback`: the fallback is used when the field
is absent or falsy (the empty string). -/
def jsOrDefault (e : Option String) (d : String) : String :=
  match e with
  | some s => if s = "" then d else s
  | none => d

/-- page.tsx lines 52-54, run synchronously at the top of handlePredict:
setIsLoading(true); setError(null); setPrediction(null). -/
def predictStart (s : State) : State :=
  { s with isLoading := true, error := none, prediction := JsValue.null }

/-- page.tsx lines 56-87: resolution of the awaited fetch. `response.json()`
is awaited before the `ok` check, so an unparsable body throws first and its
parse-error message is what the catch stores; a non-ok response throws
`new Error(data.error || 'Prediction request failed')`; otherwise
`setPrediction(data.predicted_quality)` (undefined when the field is absent).
The finally block clears isLoading. -/
def resolveNet (s : State) (net : NetResult) : State :=
  match net with
  | .transport m => { s with error := some m, isLoading := false }
  | .response ok body =>
    match body with
    | .error m => { s with error := some m, isLoading := false }
    | .ok data =>
      if ok then
        { s with
          prediction :=
            (match data.predicted_quality with
             | some q => JsValue.num q
             | none => JsValue.undef),
          isLoading := false }
      else
        { s with
          error := some (jsOrDefault data.error "Prediction request failed"),
          isLoading := false }

/-- One whole handlePredict call (page.tsx lines 51-88), given the eventual
result of its single fetch. -/
def handlePredict (s : State) (net : NetResult) : State :=
  resolveNet (predictStart s) net

/-- The request body object of page.tsx lines 62-71: the 8 wire keys mapped to
the current feature values, in source order. -/
def requestBody (fs : FeatureName → JsNum) : List (String × JsNum) :=
  [("fixed_acidity", fs .fixed_acidity),
   ("volatile_acidity", fs .volatile_acidity),
   ("citric_acid", fs .citric_acid),
   ("chlorides", fs .chlorides),
   ("free_sulfur_dioxide", fs .free_sulfur_dioxide),
   ("density", fs .density),
   ("alcohol", fs .alcohol),
   ("type_white", fs .type_white)]

/-- The 8 wire field names, in payload order. -/
def wireKeys : List String :=
  ["fixed_acidity", "volatile_acidity", "citric_acid", "chlorides",
   "free_sulfur_dioxide", "density", "alcohol", "type_white"]

/-- The payload shape as the specification words it (spec §6 and §8): the 8
internal feature keys renamed to their wire field names, each mapped to the
current value of that feature. Written from the spec for comparison with
`requestBody`, which is written from the source. -/
def specRequestBody (fs : FeatureName → JsNum) : List (String × JsNum) :=
  [("fixed_acidity", fs FeatureName.fixed_acidity),
   ("volatile_acidity", fs FeatureName.volatile_acidity),
   ("citric_acid", fs FeatureName.citric_acid),
   ("chlorides", fs FeatureName.chlorides),
   ("free_sulfur_dioxide", fs FeatureName.free_sulfur_dioxide),
   ("density", fs FeatureName.density),
   ("alcohol", fs FeatureName.alcohol),
   ("type_white", fs FeatureName.type_white)]

/-- The network call a bare handlePredict invocation issues, as the body it
sends: the handler body (page.tsx lines 51-88) contains no guard of any kind,
so every invocation issues exactly one fetch. -/
def handlePredictRequest (s : State) : Option (List (String × JsNum)) :=
  some (requestBody s.features)

/-- A click on the Predict button (page.tsx lines 141-147): the button carries
`disabled={isLoading}` and `onClick={handlePredict}`, so a click while loading
reaches no handler and issues no call. -/
def clickPredict (s : State) : Option (List (String × JsNum)) :=
  if s.isLoading then none else handlePredictRequest s

/-- The spec's PredictionOutcome sum type (spec §3). -/
inductive Outcome where
  | Idle
  | Pending
  | Succeeded (value : ℚ)
  | Failed (message : String)
deriving DecidableEq

/-- Abstraction of the three state cells to the spec's outcome, following the
rendering (page.tsx lines 146, 149-159): isLoading renders the pending label,
a non-null error renders the failure message, a numeric prediction renders the
success value; anything else shows none of the three. -/
def outcomeOf (s : State) : Outcome :=
  if s.isLoading then Outcome.Pending
  else
    match s.error with
    | some m => Outcome.Failed m
    | none =>
      match s.prediction with
      | JsValue.num q => Outcome.Succeeded q
      | _ => Outcome.Idle

/-- Prefix test on character lists, for the substring search below. -/
def charsPrefix : List Char → List Char → Bool
  | [], _ => true
  | _ :: _, [] => false
  | a :: as, b :: bs => a = b && charsPrefix as bs

/-- Substring occurrence of `sub` in a character list. -/
def containsSub (sub : List Char) : List Char → Bool
  | [] => sub.isEmpty
  | c :: cs => charsPrefix sub (c :: cs) || containsSub sub cs

/-- JavaScript `s.includes(sub)`. -/
def jsIncludes (s sub : String) : Bool := containsSub sub.toList s.toList

/-- A thrown JavaScript error as the part_000 catch block inspects it: whether
it is a TypeError, and its `message` property when it is a string. -/
structure JsErr where
  isTypeError : Bool
  message : Option String

/-- part_000 lines 58-65: the error has a string `message` property. -/
def isErrorWithMessage (e : JsErr) : Bool := e.message.isSome

/-- The fixed connectivity/CORS hint of part_000 line 132. -/
def corsHintMessage : String :=
  "Network error: This could be due to CORS restrictions. Please ensure the API allows requests from this origin."

/-- part_000 lines 128-135: the message the variant catch block stores — the
fixed CORS hint for a TypeError whose message mentions fetch, else the error's
own message, else a fixed unknown-error string. -/
def part000CatchMessage (e : JsErr) : String :=
  if e.isTypeError && isErrorWithMessage e && jsIncludes (e.message.getD "") "fetch" then
    corsHintMessage
  else if isErrorWithMessage e then e.message.getD ""
  else "An unknown error occurred"

/-- Evaluation: the raw value "999" parses to the number 999. -/
theorem parseFloat_999 : parseFloat "999" = some (999 : ℚ) := by
  have h : parseFloatScaled "999" = some (false, 999, 0) := by decide
  norm_num [parseFloat, h, ratOfScaled]

/-- Evaluation: the raw value "10.5" parses to the number 10.5. -/
theorem parseFloat_10_5 : parseFloat "10.5" = some (10.5 : ℚ) := by
  have h : parseFloatScaled "10.5" = some (false, 105, 1) := by decide
  norm_num [parseFloat, h, ratOfScaled]

/-- Evaluation: the raw value "abc" fails to parse (NaN). -/
theorem parseFloat_abc : parseFloat "abc" = none := by
  have h : parseFloatScaled "abc" = none := by decide
  simp [parseFloat, h]

/-- Claim C1, counterexample: in a state whose outcome is already Pending
(isLoading = true), a call to handlePredict still issues a network call — the
handler body has no Pending guard, so the claim as stated fails. -/
theorem c1_counterexample :
    (predictStart initialState).isLoading = true ∧
    (handlePredictRequest (predictStart initialState)).isSome = true :=
  ⟨rfl, rfl⟩

/-- Claim C1 (amended): handlePredict itself contains no Pending guard and
every invocation issues a network call; the at-most-one-in-flight property is
enforced only at the UI layer, where the Predict button is disabled while
isLoading, so a button-mediated predict during Pending issues no second call. -/
theorem c1_amended (s : State) :
    (s.isLoading = true → clickPredict s = none) ∧
    (handlePredictRequest s).isSome = true := by
  refine ⟨fun h => ?_, rfl⟩
  simp [clickPredict, h]

/-- Claim C1, witness: in the concrete Pending state reached from the initial
state, a button click issues no call. -/
theorem c1_witness :
    (predictStart initialState).isLoading = true ∧
    clickPredict (predictStart initialState) = none :=
  ⟨rfl, (c1_amended (predictStart initialState)).1 rfl⟩

/-- Claim C2, counterexample: handleSliderChange commits the out-of-range
value 999 to alcohol (whose max is 15), changing the state, and commits NaN
for the unparsable raw value "abc" — the update is not rejected. -/
theorem c2_counterexample :
    (handleSliderChange defaultFeatures FeatureName.alcohol "999")
        FeatureName.alcohol = JsNum.num 999 ∧
    (featureRanges FeatureName.alcohol).max < 999 ∧
    defaultFeatures FeatureName.alcohol ≠ JsNum.num 999 ∧
    (handleSliderChange defaultFeatures FeatureName.density "abc")
        FeatureName.density = JsNum.nan := by
  refine ⟨?_, ?_, ?_, ?_⟩
  · simp [handleSliderChange, parseFloat_999, ofParse]
  · norm_num [featureRanges]
  · norm_num [defaultFeatures]
  · simp [handleSliderChange, parseFloat_abc, ofParse]

/-- Claim C2 (amended): handleSliderChange performs no validation: the parse
result is committed unconditionally, so an out-of-range number is committed
as-is and an unparsable raw value is committed as NaN; only the other features
are left unchanged. Bounds are enforced solely by the range input widget's
min/max attributes, not by the state setter. -/
theorem c2_amended (fs : FeatureName → JsNum) (f : FeatureName) (str : String)
    (v : ℚ) :
    (parseFloat str = some v →
      ¬((featureRanges f).min ≤ v ∧ v ≤ (featureRanges f).max) →
      (handleSliderChange fs f str) f = JsNum.num v) ∧
    (parseFloat str = none → (handleSliderChange fs f str) f = JsNum.nan) ∧
    (∀ g, g ≠ f → (handleSliderChange fs f str) g = fs g) := by
  refine ⟨fun h _ => ?_, fun h => ?_, fun g hg => ?_⟩
  · simp [handleSliderChange, ofParse, h]
  · simp [handleSliderChange, ofParse, h]
  · simp [handleSliderChange, hg]

/-- Claim C2, witness: the out-of-range value 999 is committed to alcohol. -/
theorem c2_witness :
    (handleSliderChange defaultFeatures FeatureName.alcohol "999")
        FeatureName.alcohol = JsNum.num 999 :=
  (c2_amended defaultFeatures FeatureName.alcohol "999" 999).1
    parseFloat_999 (by norm_num [featureRanges])

/-- Claim C3, counterexample: two concrete non-ok responses refute the claim
as stated. With a body that is not parsable as JSON, the stored message is the
JSON parse error's message (response.json() is awaited before the ok check and
throws first), not the fixed generic string; and with the error field present
but empty, the stored message is the generic string, not the field's value
(the empty string is falsy in `data.error || ...`). -/
theorem c3_counterexample :
    (handlePredict initialState
        (NetResult.response false
          (Except.error "Unexpected end of JSON input"))).error
      = some "Unexpected end of JSON input" ∧
    "Unexpected end of JSON input" ≠ "Prediction request failed" ∧
    (handlePredict initialState
        (NetResult.response false (Except.ok ⟨some "", none⟩))).error
      = some "Prediction request failed" ∧
    "Prediction request failed" ≠ "" :=
  ⟨rfl, by decide, rfl, by decide⟩

/-- Claim C3 (amended): on a non-success response whose body parses as JSON,
the outcome message is the body's error field when that field is present and
non-empty, and the fixed generic string when the field is absent or present
but empty (falsy under the JavaScript or-else); when the body is not parsable
as JSON, the stored message is the parse error's own message instead of the
generic string. -/
theorem c3_amended (s : State) (b : RespBody) (m : String) :
    (b.error = some m → m ≠ "" →
      (handlePredict s (NetResult.response false (Except.ok b))).error
        = some m) ∧
    (b.error = none ∨ b.error = some "" →
      (handlePredict s (NetResult.response false (Except.ok b))).error
        = some "Prediction request failed") ∧
    (handlePredict s (NetResult.response false (Except.error m))).error
      = some m := by
  refine ⟨fun h hm => ?_, fun h => ?_, rfl⟩
  · simp [handlePredict, resolveNet, predictStart, jsOrDefault, h, hm]
  · rcases h with h | h <;>
      simp [handlePredict, resolveNet, predictStart, jsOrDefault, h]

/-- Claim C3, witness: a 500-class response with body error "model
unavailable" stores exactly that message, and one whose error field is the
empty string stores the generic string. -/
theorem c3_witness :
    (handlePredict initialState
        (NetResult.response false
          (Except.ok ⟨some "model unavailable", none⟩))).error
      = some "model unavailable" ∧
    (handlePredict initialState
        (NetResult.response false (Except.ok ⟨some "", none⟩))).error
      = some "Prediction request failed" :=
  ⟨(c3_amended initialState ⟨some "model unavailable", none⟩
      "model unavailable").1 rfl (by decide),
   (c3_amended initialState ⟨some "", none⟩ "").2.1 (Or.inr rfl)⟩

/-- Claim C4, counterexample: on a success (ok) response whose body lacks
predicted_quality, the error cell stays null (so no Failed transition occurs)
and the prediction cell is set to the missing field's value, undefined. -/
theorem c4_counterexample :
    (handlePredict initialState
        (NetResult.response true (Except.ok ⟨none, none⟩))).error = none ∧
    (handlePredict initialState
        (NetResult.response true (Except.ok ⟨none, none⟩))).prediction
      = JsValue.undef :=
  ⟨rfl, rfl⟩

/-- Claim C4 (amended): a 2xx response whose JSON body lacks predicted_quality
takes the success path: handlePredict stores undefined as the prediction,
leaves the error cell null, and clears isLoading — it does not transition to
Failed. -/
theorem c4_amended (s : State) (e : Option String) :
    (handlePredict s (NetResult.response true (Except.ok ⟨e, none⟩))).error
      = none ∧
    (handlePredict s
        (NetResult.response true (Except.ok ⟨e, none⟩))).prediction
      = JsValue.undef ∧
    (handlePredict s (NetResult.response true (Except.ok ⟨e, none⟩))).isLoading
      = false :=
  ⟨rfl, rfl, rfl⟩

/-- Claim C5, counterexample: a transport failure whose runtime message is the
string "Prediction request failed" is surfaced verbatim, identical to the
message the application-error path produces for an ok=false response with no
error field — the two paths are not distinct in content. -/
theorem c5_counterexample :
    (handlePredict initialState
        (NetResult.transport "Prediction request failed")).error
      = some "Prediction request failed" ∧
    (handlePredict initialState
        (NetResult.response false (Except.ok ⟨none, none⟩))).error
      = some "Prediction request failed" :=
  ⟨rfl, rfl⟩

/-- Claim C5 (amended): in page.tsx a transport failure transitions to
Failed(m) where m is the runtime exception's message verbatim — the controller
crafts no connectivity hint and guarantees no distinctness from the
application-error path; only the part_000 variant maps a TypeError whose
message mentions fetch to a fixed connectivity/CORS-hinting message. -/
theorem c5_amended (s : State) (m : String) :
    (handlePredict s (NetResult.transport m)).error = some m ∧
    (handlePredict s (NetResult.transport m)).isLoading = false ∧
    (jsIncludes m "fetch" = true →
      part000CatchMessage ⟨true, some m⟩ = corsHintMessage) := by
  refine ⟨rfl, rfl, fun h => ?_⟩
  simp [part000CatchMessage, isErrorWithMessage, h]

/-- Claim C5, witness: the browser message "Failed to fetch" is stored
verbatim by page.tsx, and the part_000 variant maps it to the CORS hint. -/
theorem c5_witness :
    (handlePredict initialState (NetResult.transport "Failed to fetch")).error
      = some "Failed to fetch" ∧
    part000CatchMessage ⟨true, some "Failed to fetch"⟩ = corsHintMessage :=
  ⟨(c5_amended initialState "Failed to fetch").1,
   (c5_amended initialState "Failed to fetch").2.2 (by decide)⟩

/-- Claim C6 (confirmed): for every feature state the request body is exactly
the 8-key object the spec prescribes, key-for-key with no extra or missing
keys, and the default state serializes to the literal object of the claim. -/
theorem c6_serialization :
    (∀ fs, requestBody fs = specRequestBody fs) ∧
    (∀ fs, (requestBody fs).map Prod.fst = wireKeys) ∧
    requestBody defaultFeatures =
      [("fixed_acidity", JsNum.num 7.0),
       ("volatile_acidity", JsNum.num 0.27),
       ("citric_acid", JsNum.num 0.36),
       ("chlorides", JsNum.num 0.05),
       ("free_sulfur_dioxide", JsNum.num 30),
       ("density", JsNum.num 0.995),
       ("alcohol", JsNum.num 10.5),
       ("type_white", JsNum.num 1)] :=
  ⟨fun _ => rfl, fun _ => rfl, rfl⟩

/-- Claim C7 (confirmed): an ok response with a numeric predicted_quality q
resolves to the Succeeded(q) outcome, whatever the prior state; in particular
a 200 response with body predicted_quality 6.2 yields Succeeded(6.2). -/
theorem c7_success (s : State) (e : Option String) (q : ℚ) :
    outcomeOf (handlePredict s
        (NetResult.response true (Except.ok ⟨e, some q⟩)))
      = Outcome.Succeeded q ∧
    outcomeOf (handlePredict initialState
        (NetResult.response true (Except.ok ⟨none, some (6.2 : ℚ)⟩)))
      = Outcome.Succeeded (6.2 : ℚ) :=
  ⟨rfl, rfl⟩

/-- Claim C8 (confirmed): from any prior state, the synchronous head of
handlePredict moves the outcome to Pending, clearing the prior prediction
value and error message while leaving the features untouched, and the rest of
the call resolves from exactly that cleared state. -/
theorem c8_pending (s : State) :
    outcomeOf (predictStart s) = Outcome.Pending ∧
    (predictStart s).prediction = JsValue.null ∧
    (predictStart s).error = none ∧
    (predictStart s).features = s.features ∧
    (∀ net, handlePredict s net = resolveNet (predictStart s) net) :=
  ⟨rfl, rfl, rfl, rfl, fun _ => rfl⟩

/-- Claim C9 (confirmed): committing a raw value that parses to an in-range
number v and then reading the feature returns exactly v. -/
theorem c9_roundtrip (fs : FeatureName → JsNum) (f : FeatureName)
    (str : String) (v : ℚ) (hp : parseFloat str = some v)
    (hlo : (featureRanges f).min ≤ v) (hhi : v ≤ (featureRanges f).max) :
    (handleSliderChange fs f str) f = JsNum.num v := by
  simp [handleSliderChange, ofParse, hp]

/-- Claim C9, witness: committing "10.5" to alcohol (range [8, 15]) reads
back exactly 10.5. -/
theorem c9_witness :
    (handleSliderChange defaultFeatures FeatureName.alcohol "10.5")
        FeatureName.alcohol = JsNum.num (10.5 : ℚ) :=
  c9_roundtrip defaultFeatures FeatureName.alcohol "10.5" (10.5 : ℚ)
    parseFloat_10_5 (by norm_num [featureRanges]) (by norm_num [featureRanges])

/-- Claim C10 (confirmed): handleTypeChange stores its argument into
type_white verbatim for every number, with no validation restricting it to
0 or 1, and leaves every other feature unchanged. -/
theorem c10_type_setter (fs : FeatureName → JsNum) (v : ℚ) :
    (handleTypeChange fs v) FeatureName.type_white = JsNum.num v ∧
    (∀ f, f ≠ FeatureName.type_white → (handleTypeChange fs v) f = fs f) := by
  refine ⟨?_, fun f hf => ?_⟩
  · simp [handleTypeChange]
  · simp [handleTypeChange, hf]

/-- Claim C10, witness: the non-binary value 5 is stored into type_white
verbatim, and density is unchanged. -/
theorem c10_witness :
    (handleTypeChange defaultFeatures 5) FeatureName.type_white
      = JsNum.num 5 ∧
    (handleTypeChange defaultFeatures 5) FeatureName.density
      = defaultFeatures FeatureName.density :=
  ⟨(c10_type_setter defaultFeatures 5).1,
   (c10_type_setter defaultFeatures 5).2 FeatureName.density (by decide)⟩

end WineDash
